import Mathlib

/-!
Shallow embedding of the provider-verification reverse proxy of `pact-go`
(`provider/verifier.go`): the hook middlewares, the state-handler bridge,
the port waiter and the verification orchestrator `verifyProviderRaw`.

HTTP handlers are embedded as trace functions: a handler maps a request to
the list of observable events (hook invocations, header/status/body writes,
state-handler invocations) it produces, and a middleware maps a downstream
handler (`next`) to a wrapped handler, exactly mirroring the Go
`func(next http.Handler) http.Handler` decorators.
-/

set_option autoImplicit false

/-- JSON values, the payloads flowing through the state-handler bridge. -/
inductive Json where
  | null
  | bool (b : Bool)
  | num (n : Int)
  | str (s : String)
  | arr (elems : List Json)
  | obj (fields : List (String × Json))

/-- Lookup of a key in a JSON object's field list with Go `encoding/json`
object semantics: a later duplicate key overwrites an earlier one. -/
def getField : List (String × Json) → String → Option Json
  | [], _ => none
  | (k, v) :: rest, key =>
    match getField rest key with
    | some v' => some v'
    | none => if k = key then some v else none

/-- The finite map Go's `json.Unmarshal` builds from a JSON object:
duplicate keys collapse, keeping the last occurrence. -/
def goObjMap : List (String × Json) → List (String × Json)
  | [] => []
  | (k, v) :: rest =>
    if (goObjMap rest).any (fun p => p.1 = k) then goObjMap rest
    else (k, v) :: goObjMap rest

/-- Go's `delete(m, k)` on the params map: remove the entry with key `k`. -/
def deleteKey : List (String × Json) → String → List (String × Json)
  | [], _ => []
  | (a, v) :: rest, k =>
    if a = k then deleteKey rest k else (a, v) :: deleteKey rest k

/-- An inbound HTTP request as seen by the middleware: method, URL path and
raw body (`none` models a body that is not valid JSON text). The Go
middlewares never inspect the method. -/
structure Request where
  method : String
  path : String
  body : Option Json

/-- The provider state passed to a registered state handler
(`models.ProviderState{Name, Parameters}`). -/
structure ProviderState where
  Name : String
  Parameters : List (String × Json)

/-- Observable events a handler produces while serving one request. -/
inductive Event where
  /-- the `BeforeEach` hook was invoked -/
  | beforeHookCalled
  /-- the `AfterEach` hook was invoked -/
  | afterHookCalled
  /-- status write `w.WriteHeader(status)` -/
  | wroteHeader (status : Nat)
  /-- header write `w.Header().Add(name, value)` -/
  | addedHeader (name value : String)
  /-- body write `w.Write(body)` of a JSON-serialized body -/
  | wroteBody (b : Json)
  /-- a registered state handler was invoked with (setup, state) -/
  | stateHandlerCalled (setup : Bool) (state : ProviderState)
  /-- marker event a downstream handler may emit -/
  | downstream

/-- A handler is the trace of events it produces on a request. -/
def Handler := Request → List Event

/-- A middleware decorates a downstream handler, as in `proxy.Middleware`. -/
def Middleware := Handler → Handler

/-- Go constant `providerStatesSetupPath = "/__setup"`. -/
def providerStatesSetupPath : String := "/__setup"

/-- The effective HTTP status of a response trace, with Go semantics:
the first `WriteHeader` wins; a body write before any explicit
`WriteHeader` implicitly sets status 200; later `WriteHeader` calls are
superfluous and ignored. -/
def effectiveStatus : List Event → Option Nat
  | [] => none
  | Event.wroteHeader s :: _ => some s
  | Event.wroteBody _ :: _ => some 200
  | _ :: rest => effectiveStatus rest

/-- The body bytes written in a response trace, as the list of JSON values
passed to `w.Write`. -/
def responseBody : List Event → List Json
  | [] => []
  | Event.wroteBody b :: rest => b :: responseBody rest
  | _ :: rest => responseBody rest

/-- Middleware `beforeEachMiddleware`: on the `__setup` path it runs the `BeforeEach`
hook (whose result is `some err` or `none`), writes a 500 status when the
hook errored, and in every case continues to `next`. `hook` is the
error-or-nil the Go `Hook` function returns. -/
def beforeEachMiddleware (hook : Option String) : Middleware := fun next r =>
  (if r.path = providerStatesSetupPath then
    Event.beforeHookCalled ::
      (match hook with
       | some _ => [Event.wroteHeader 500]
       | none => [])
  else []) ++ next r

/-- Middleware `afterEachMiddleware`: always runs `next` first, then, only on paths
other than the `__setup` path, runs the `AfterEach` hook and writes a 500
status when it errored. -/
def afterEachMiddleware (hook : Option String) : Middleware := fun next r =>
  next r ++
    (if r.path ≠ providerStatesSetupPath then
      Event.afterHookCalled ::
        (match hook with
         | some _ => [Event.wroteHeader 500]
         | none => [])
    else [])

/-- The control envelope of a state-change instruction
(Go struct `stateHandlerAction`, fields `Action`, `State`). -/
structure StateHandlerAction where
  Action : String
  State : String

/-- Decoding one JSON value into a Go `string` struct field: an absent
field or JSON `null` keeps the zero value `""`; any non-string value is an
`UnmarshalTypeError`. -/
def decodeStringField : Option Json → Option String
  | none => some ""
  | some (Json.str s) => some s
  | some Json.null => some ""
  | some _ => none

/-- Decode step `json.Unmarshal(buf, &state)` with `state : stateHandlerAction`:
fails on malformed text and on any top-level value other than an object
(JSON `null` is a no-op success leaving zero values); inside an object the
`action` and `state` fields must be strings where present. -/
def decodeStateHandlerAction : Option Json → Option StateHandlerAction
  | none => none
  | some Json.null => some { Action := "", State := "" }
  | some (Json.obj fields) =>
    match decodeStringField (getField fields "action"),
          decodeStringField (getField fields "state") with
    | some a, some s => some { Action := a, State := s }
    | _, _ => none
  | some _ => none

/-- Decode step `json.Unmarshal(buf, &params)` with
`params : models.ProviderStateResponse` (a `map[string]interface{}`):
fails on malformed text and on non-object top-level values; JSON `null`
leaves the nil (empty) map. -/
def decodeProviderStateResponse : Option Json → Option (List (String × Json))
  | none => none
  | some Json.null => some []
  | some (Json.obj fields) => some (goObjMap fields)
  | some _ => none

/-- The observable outcome of one Go state-handler call
`func(setup bool, s models.ProviderState) (models.ProviderStateResponse, error)`,
together with the outcome of `json.Marshal` on its result. -/
inductive HandlerResult where
  /-- the handler returned a non-nil error -/
  | errored
  /-- the handler returned a nil result and nil error -/
  | nilResult
  /-- the handler returned a non-nil result; `some j` is its JSON
  encoding, `none` means `json.Marshal` failed on it -/
  | result (marshalled : Option Json)

/-- A registered state handler (`models.StateHandler`). -/
def StateHandler := Bool → ProviderState → HandlerResult

/-- Go map lookup `stateHandlers[state.State]` over the registry. -/
def getHandler : List (String × StateHandler) → String → Option StateHandler
  | [], _ => none
  | (name, h) :: rest, key => if name = key then some h else getHandler rest key

/-- Middleware `stateHandlerMiddleware`: on the `__setup` path it decodes the body
twice (control envelope, then generic params map), strips the reserved
`action`/`state` keys from the params, looks up and runs the state
handler, writes the handler's marshalled result when there is one, and
never forwards to `next`; every other path passes through untouched. -/
def stateHandlerMiddleware (stateHandlers : List (String × StateHandler)) :
    Middleware := fun next r =>
  if r.path = providerStatesSetupPath then
    match decodeStateHandlerAction r.body with
    | none => [Event.wroteHeader 500]
    | some state =>
      match decodeProviderStateResponse r.body with
      | none => [Event.wroteHeader 500]
      | some params0 =>
        let params := deleteKey (deleteKey params0 "action") "state"
        match getHandler stateHandlers state.State with
        | none => [Event.wroteHeader 200]
        | some sf =>
          let setup := state.Action == "setup"
          let ps : ProviderState := { Name := state.State, Parameters := params }
          match sf setup ps with
          | HandlerResult.errored =>
            [Event.stateHandlerCalled setup ps, Event.wroteHeader 500]
          | HandlerResult.nilResult =>
            [Event.stateHandlerCalled setup ps, Event.wroteHeader 200]
          | HandlerResult.result none =>
            [Event.stateHandlerCalled setup ps, Event.wroteHeader 500]
          | HandlerResult.result (some resBody) =>
            [Event.stateHandlerCalled setup ps,
             Event.addedHeader "content-type" "application/json",
             Event.wroteBody resBody,
             Event.wroteHeader 200]
  else
    next r

/-- A transport descriptor appended for message handlers. -/
structure Transport where
  Path : String
  Protocol : String
  Port : Nat

/-- The verify request as seen by the orchestrator. Hooks and the request
filter only matter by presence (non-nil), handler registries by their
registered keys. -/
structure VerifyRequest where
  ProviderBaseURL : String
  BeforeEach : Bool
  AfterEach : Bool
  StateHandlers : List String
  MessageHandlers : List String
  RequestFilter : Bool
  ProviderStatesSetupURL : String
  Transports : List Transport

/-- The `Verifier` configuration struct. `ClientTimeout` is kept as an
abstract duration count (0 = unset). -/
structure Verifier where
  ClientTimeout : Nat
  Hostname : String

/-- Function `validateConfig`: apply the defaults (10s timeout, "localhost"); it
never returns an error. -/
def validateConfig (v : Verifier) : Verifier :=
  { ClientTimeout := if v.ClientTimeout = 0 then 10 else v.ClientTimeout,
    Hostname := if v.Hostname = "" then "localhost" else v.Hostname }

/-- The components `url.Parse` extracts that the orchestrator uses. -/
structure ParsedURL where
  scheme : String
  hostname : String
  port : String
  path : String

/-- Tags for the middlewares the orchestrator composes, in registration
order. -/
inductive MiddlewareTag where
  | beforeEach
  | afterEach
  | stateHandler
  | messageHandler
  | requestFilter

/-- The `proxy.Options` the orchestrator builds. -/
structure ProxyOptions where
  TargetAddress : String
  TargetScheme : String
  TargetPath : String
  MiddlewareList : List MiddlewareTag
  InternalRequestPath : String

/-- Lines 100-120: the middleware list, one entry per present hook /
non-empty registry, in registration order. -/
def buildMiddleware (request : VerifyRequest) : List MiddlewareTag :=
  (if request.BeforeEach then [MiddlewareTag.beforeEach] else [])
  ++ (if request.AfterEach then [MiddlewareTag.afterEach] else [])
  ++ (if request.StateHandlers ≠ [] then [MiddlewareTag.stateHandler] else [])
  ++ (if request.MessageHandlers ≠ [] then [MiddlewareTag.messageHandler] else [])
  ++ (if request.RequestFilter then [MiddlewareTag.requestFilter] else [])

/-- Lines 122-130: the proxy options from the parsed provider URL. -/
def buildProxyOptions (u : ParsedURL) (request : VerifyRequest) : ProxyOptions :=
  { TargetAddress := u.hostname ++ ":" ++ u.port,
    TargetScheme := u.scheme,
    TargetPath := u.path,
    MiddlewareList := buildMiddleware request,
    InternalRequestPath := providerStatesSetupPath }

/-- The environment of one run: results of the external calls the
orchestrator makes, in the order it makes them. `dials` is the sequence of
dial-attempt outcomes the port waiter observes before its timeout fires. -/
structure RunEnv where
  /-- result of `utils.GetFreePort()`: an allocated port, or `none` on error -/
  freePort : Option Nat
  /-- result of `request.validate(handle)`: `some` an error message, or `none` -/
  validateErr : Option String
  /-- result of `url.Parse`: the components, or `none` on parse error -/
  parseURL : String → Option ParsedURL
  /-- the port `proxy.HTTPReverseProxy` returns -/
  proxyPort : Nat
  /-- the (unchecked) error `proxy.HTTPReverseProxy` returns -/
  proxyErr : Option String
  /-- dial outcomes of `WaitForPort` before the timeout elapses -/
  dials : List Bool
  /-- result of `request.Verify(handle, writer)`: `some` an error, or `none` -/
  verifyResult : Option String

/-- Observable side effects of one orchestrator run, in order. -/
inductive RunEffect where
  /-- effect of `go v.startDefaultHTTPServer(port)` bound to `hostname:port` -/
  | startedDummyServer (hostname : String) (port : Nat)
  /-- effect of starting `proxy.HTTPReverseProxy(opts)` -/
  | startedProxy (opts : ProxyOptions)
  /-- effect of calling `request.Verify(handle, writer)` with the final request -/
  | calledVerify (request : VerifyRequest)

/-- How one `verifyProviderRaw` call ends. -/
inductive RunOutcome where
  /-- outcome of `log.Panic(msg)`: the run dies with a panic -/
  | logPanic (msg : String)
  /-- outcome of `log.Fatal("Error:", err)`: the process exits; carries the logged
  `err` value (the unchecked proxy-start error, not the timeout error) -/
  | logFatal (loggedErr : Option String)
  /-- an error returned to the caller before verification -/
  | err (e : String)
  /-- outcome where `request.Verify` ran on the final request; its result is returned -/
  | verified (request : VerifyRequest) (result : Option String)

/-- Function `WaitForPort`: poll until a dial succeeds; when the timeout fires
first (all observed dials failed), return the timeout error built from
the duration and the caller's message. `none` means success. -/
def WaitForPort (dials : List Bool) (timeoutDesc message : String) :
    Option String :=
  match dials with
  | [] => some ("expected server to start < " ++ timeoutDesc ++ ". " ++ message)
  | ok :: rest => if ok then none else WaitForPort rest timeoutDesc message

/-- Lines 90-169 of `verifyProviderRaw`, after the dummy-server step:
validate the request, parse the provider URL, build the middleware list
and proxy options, start the proxy, append the message transport, default
the legacy provider-states URL, wait for the proxy port, then verify. -/
def runAfterDummy (v : Verifier) (env : RunEnv) (request : VerifyRequest)
    (effs : List RunEffect) : RunOutcome × List RunEffect :=
  match env.validateErr with
  | some e => (RunOutcome.err e, effs)
  | none =>
    match env.parseURL request.ProviderBaseURL with
    | none => (RunOutcome.logPanic "unable to parse the provider URL", effs)
    | some u =>
      let opts := buildProxyOptions u request
      let port := env.proxyPort
      let effs := effs ++ [RunEffect.startedProxy opts]
      let request1 :=
        if request.MessageHandlers = [] then request
        else { request with Transports := request.Transports ++
                 [{ Path := "/__messages", Protocol := "message",
                    Port := port % 65536 }] }
      let request2 :=
        if request1.ProviderStatesSetupURL = "" ∧ request1.StateHandlers ≠ []
        then { request1 with ProviderStatesSetupURL :=
                 "http://localhost:" ++ toString port ++ providerStatesSetupPath }
        else request1
      match WaitForPort env.dials (toString (validateConfig v).ClientTimeout)
          ("Timed out waiting for http verification proxy on port "
            ++ toString port ++ " - check for errors") with
      | some _ => (RunOutcome.logFatal env.proxyErr, effs)
      | none =>
        (RunOutcome.verified request2 env.verifyResult,
         effs ++ [RunEffect.calledVerify request2])

/-- Function `verifyProviderRaw`: apply the config defaults; when no provider base
URL is given, allocate a free port (panicking when none is available) and
start the dummy server, rewriting the base URL to the generated one; then
run the remaining pipeline. -/
def verifyProviderRaw (v0 : Verifier) (env : RunEnv) (request : VerifyRequest) :
    RunOutcome × List RunEffect :=
  let v := validateConfig v0
  if request.ProviderBaseURL = "" then
    match env.freePort with
    | none => (RunOutcome.logPanic "unable to allocate a port for verification", [])
    | some port =>
      runAfterDummy v env
        { request with ProviderBaseURL := "http://localhost:" ++ toString port }
        [RunEffect.startedDummyServer v.Hostname port]
  else
    runAfterDummy v env request []

/-! ### Helper lemmas about the JSON object operations -/

theorem getField_deleteKey (m : List (String × Json)) (k k' : String) :
    getField (deleteKey m k') k = if k = k' then none else getField m k := by
  induction m with
  | nil =>
    simp only [deleteKey, getField]
    split <;> rfl
  | cons p rest ih =>
    obtain ⟨a, v⟩ := p
    simp only [deleteKey]
    by_cases hak : a = k'
    · rw [if_pos hak]
      rw [ih]
      by_cases hkk : k = k'
      · simp [hkk]
      · rw [if_neg hkk, if_neg hkk]
        simp only [getField]
        cases hg : getField rest k with
        | some v' => rfl
        | none =>
          rw [if_neg]
          intro hc
          exact hkk (by rw [← hc, hak])
    · rw [if_neg hak]
      by_cases hkk : k = k'
      · subst hkk
        simp [getField, ih, hak]
      · simp [getField, ih, hkk]

theorem getField_ne_none_of_any (l : List (String × Json)) (a : String)
    (h : l.any (fun p => p.1 = a) = true) : getField l a ≠ none := by
  induction l with
  | nil => simp at h
  | cons p rest ih =>
    obtain ⟨k, v⟩ := p
    simp only [List.any_cons, Bool.or_eq_true, decide_eq_true_eq] at h
    simp only [getField]
    cases hg : getField rest a with
    | some v' => simp
    | none =>
      rcases h with h | h
      · simp [h]
      · exact absurd hg (ih h)

theorem getField_goObjMap (fs : List (String × Json)) (k : String) :
    getField (goObjMap fs) k = getField fs k := by
  induction fs with
  | nil => rfl
  | cons p rest ih =>
    obtain ⟨a, v⟩ := p
    simp only [goObjMap]
    by_cases hany : (goObjMap rest).any (fun p => p.1 = a) = true
    · simp only [hany, if_true, ih, getField]
      cases hg : getField rest k with
      | some v' => simp
      | none =>
        rw [if_neg]
        intro hak
        subst hak
        exact getField_ne_none_of_any _ _ hany (ih ▸ hg)
    · simp only [hany, if_false, getField, ih]

theorem decodeAction_some_params (b : Option Json) (act : StateHandlerAction)
    (h : decodeStateHandlerAction b = some act) :
    ∃ p, decodeProviderStateResponse b = some p := by
  cases b with
  | none => simp [decodeStateHandlerAction] at h
  | some j =>
    cases j <;>
      simp [decodeStateHandlerAction, decodeProviderStateResponse] at h ⊢

/-! ### Claim theorems: state-handler bridge -/

/-- C1: for every well-formed JSON object request body on the `/__setup`
path, the params mapping delivered to the matched state handler equals the
body's top-level key-value mapping with exactly the keys `"action"` and
`"state"` removed; in particular the final params mapping never contains
either control key. -/
theorem c1_params_equal_body_minus_control_keys
    (stateHandlers : List (String × StateHandler)) (next : Handler)
    (r : Request) (fields : List (String × Json)) (act : StateHandlerAction)
    (sf : StateHandler)
    (hpath : r.path = providerStatesSetupPath)
    (hbody : r.body = some (Json.obj fields))
    (hdec : decodeStateHandlerAction r.body = some act)
    (hfound : getHandler stateHandlers act.State = some sf) :
    (∀ k, getField (deleteKey (deleteKey (goObjMap fields) "action") "state") k =
        if k = "action" ∨ k = "state" then none else getField fields k)
    ∧ ∃ rest, stateHandlerMiddleware stateHandlers next r =
        Event.stateHandlerCalled (act.Action == "setup")
          { Name := act.State,
            Parameters := deleteKey (deleteKey (goObjMap fields) "action") "state" }
          :: rest := by
  have hparams : decodeProviderStateResponse r.body = some (goObjMap fields) := by
    rw [hbody]
    rfl
  constructor
  · intro k
    rw [getField_deleteKey, getField_deleteKey, getField_goObjMap]
    by_cases h1 : k = "action" <;> by_cases h2 : k = "state" <;> simp [h1, h2]
  · simp only [stateHandlerMiddleware, hpath, hdec, hparams, hfound,
      eq_self_iff_true, if_true]
    cases hsf : sf (act.Action == "setup")
        { Name := act.State,
          Parameters := deleteKey (deleteKey (goObjMap fields) "action") "state" } with
    | errored => exact ⟨_, rfl⟩
    | nilResult => exact ⟨_, rfl⟩
    | result mb =>
      cases mb with
      | none => exact ⟨_, rfl⟩
      | some b => exact ⟨_, rfl⟩

/-- C2: for every state name not present in the state handler registry, a
state-change request to `/__setup` (setup or teardown) results in an HTTP
200 response with an empty body, no handler function is invoked, and no
error is produced. -/
theorem c2_missing_handler_noop_200
    (stateHandlers : List (String × StateHandler)) (next : Handler)
    (r : Request) (act : StateHandlerAction)
    (hpath : r.path = providerStatesSetupPath)
    (hdec : decodeStateHandlerAction r.body = some act)
    (hnone : getHandler stateHandlers act.State = none) :
    stateHandlerMiddleware stateHandlers next r = [Event.wroteHeader 200]
    ∧ effectiveStatus (stateHandlerMiddleware stateHandlers next r) = some 200
    ∧ responseBody (stateHandlerMiddleware stateHandlers next r) = []
    ∧ ∀ s ps, Event.stateHandlerCalled s ps ∉
        stateHandlerMiddleware stateHandlers next r := by
  obtain ⟨p, hp⟩ := decodeAction_some_params r.body act hdec
  have ht : stateHandlerMiddleware stateHandlers next r = [Event.wroteHeader 200] := by
    simp [stateHandlerMiddleware, hpath, hdec, hp, hnone]
  refine ⟨ht, ?_, ?_, ?_⟩
  · rw [ht]
    rfl
  · rw [ht]
    rfl
  · intro s ps hmem
    rw [ht] at hmem
    simp at hmem

/-- C3: for every request to `/__setup` whose body is not decodable as the
state-change instruction JSON, the state-handler bridge responds 500, does
not invoke any state handler, and does not invoke the downstream handler
(the request is not forwarded). -/
theorem c3_undecodable_body_responds_500
    (stateHandlers : List (String × StateHandler)) (next : Handler)
    (r : Request)
    (hpath : r.path = providerStatesSetupPath)
    (hdec : decodeStateHandlerAction r.body = none) :
    stateHandlerMiddleware stateHandlers next r = [Event.wroteHeader 500]
    ∧ effectiveStatus (stateHandlerMiddleware stateHandlers next r) = some 500
    ∧ (∀ s ps, Event.stateHandlerCalled s ps ∉
        stateHandlerMiddleware stateHandlers next r)
    ∧ ∀ next' : Handler,
        stateHandlerMiddleware stateHandlers next' r
          = stateHandlerMiddleware stateHandlers next r := by
  have ht : ∀ nx : Handler,
      stateHandlerMiddleware stateHandlers nx r = [Event.wroteHeader 500] := by
    intro nx
    simp [stateHandlerMiddleware, hpath, hdec]
  refine ⟨ht next, ?_, ?_, ?_⟩
  · rw [ht next]
    rfl
  · intro s ps hmem
    rw [ht next] at hmem
    simp at hmem
  · intro next'
    rw [ht next', ht next]

/-- C4: the before-each middleware invokes the hook only when the request
path equals `/__setup`; when the hook returns an error it writes status
500 but still invokes the downstream handler (pass-through, not
short-circuit), and on every path the downstream handler is invoked after
the hook check. -/
theorem c4_before_each_hook_gating
    (hook : Option String) (next : Handler) (r : Request)
    (hnext : Event.beforeHookCalled ∉ next r) :
    (Event.beforeHookCalled ∈ beforeEachMiddleware hook next r
      ↔ r.path = providerStatesSetupPath)
    ∧ (∃ pre, beforeEachMiddleware hook next r = pre ++ next r)
    ∧ (∀ e, r.path = providerStatesSetupPath → hook = some e →
        beforeEachMiddleware hook next r =
          Event.beforeHookCalled :: Event.wroteHeader 500 :: next r)
    ∧ (r.path ≠ providerStatesSetupPath →
        beforeEachMiddleware hook next r = next r) := by
  refine ⟨⟨?_, ?_⟩, ⟨_, rfl⟩, ?_, ?_⟩
  · intro hmem
    by_contra hpath
    simp only [beforeEachMiddleware, if_neg hpath, List.nil_append] at hmem
    exact hnext hmem
  · intro hpath
    simp [beforeEachMiddleware, hpath]
  · intro e hpath he
    simp [beforeEachMiddleware, hpath, he]
  · intro hpath
    simp [beforeEachMiddleware, hpath]

/-- C5: the after-each middleware always invokes the downstream handler
first; the after hook is invoked if and only if the request path is not
`/__setup`, and only after the downstream handler has completed; if the
hook errors, a 500 status is written (after the downstream response). -/
theorem c5_after_each_runs_downstream_first
    (hook : Option String) (next : Handler) (r : Request)
    (hnext : Event.afterHookCalled ∉ next r) :
    (∃ post, afterEachMiddleware hook next r = next r ++ post)
    ∧ (Event.afterHookCalled ∈ afterEachMiddleware hook next r
        ↔ r.path ≠ providerStatesSetupPath)
    ∧ (∀ e, r.path ≠ providerStatesSetupPath → hook = some e →
        afterEachMiddleware hook next r =
          next r ++ [Event.afterHookCalled, Event.wroteHeader 500])
    ∧ (r.path = providerStatesSetupPath →
        afterEachMiddleware hook next r = next r) := by
  refine ⟨⟨_, rfl⟩, ⟨?_, ?_⟩, ?_, ?_⟩
  · intro hmem
    intro hpath
    simp only [afterEachMiddleware, hpath, ne_eq, not_true_eq_false, if_false,
      List.append_nil] at hmem
    exact hnext hmem
  · intro hpath
    simp [afterEachMiddleware, hpath]
  · intro e hpath he
    simp [afterEachMiddleware, hpath, he]
  · intro hpath
    simp [afterEachMiddleware, hpath]

/-- C6: for a `/__setup` request whose state has a registered handler: if
the handler returns a non-nil result that serializes to JSON, the response
has status 200, a `content-type: application/json` header, and the
serialized result as body; if the handler returns a nil result, no body is
written and the status is 200; if the handler returns an error or the
result fails to serialize, the status is 500 and processing stops. -/
theorem c6_registered_handler_response_cases
    (stateHandlers : List (String × StateHandler)) (next : Handler)
    (r : Request) (act : StateHandlerAction) (params0 : List (String × Json))
    (sf : StateHandler)
    (hpath : r.path = providerStatesSetupPath)
    (hdec : decodeStateHandlerAction r.body = some act)
    (hp : decodeProviderStateResponse r.body = some params0)
    (hfound : getHandler stateHandlers act.State = some sf) :
    (∀ b, sf (act.Action == "setup")
          { Name := act.State,
            Parameters := deleteKey (deleteKey params0 "action") "state" }
          = HandlerResult.result (some b) →
        stateHandlerMiddleware stateHandlers next r =
          [Event.stateHandlerCalled (act.Action == "setup")
             { Name := act.State,
               Parameters := deleteKey (deleteKey params0 "action") "state" },
           Event.addedHeader "content-type" "application/json",
           Event.wroteBody b, Event.wroteHeader 200]
        ∧ effectiveStatus (stateHandlerMiddleware stateHandlers next r) = some 200
        ∧ responseBody (stateHandlerMiddleware stateHandlers next r) = [b])
    ∧ (sf (act.Action == "setup")
          { Name := act.State,
            Parameters := deleteKey (deleteKey params0 "action") "state" }
          = HandlerResult.nilResult →
        stateHandlerMiddleware stateHandlers next r =
          [Event.stateHandlerCalled (act.Action == "setup")
             { Name := act.State,
               Parameters := deleteKey (deleteKey params0 "action") "state" },
           Event.wroteHeader 200]
        ∧ effectiveStatus (stateHandlerMiddleware stateHandlers next r) = some 200
        ∧ responseBody (stateHandlerMiddleware stateHandlers next r) = [])
    ∧ (sf (act.Action == "setup")
          { Name := act.State,
            Parameters := deleteKey (deleteKey params0 "action") "state" }
          = HandlerResult.errored →
        stateHandlerMiddleware stateHandlers next r =
          [Event.stateHandlerCalled (act.Action == "setup")
             { Name := act.State,
               Parameters := deleteKey (deleteKey params0 "action") "state" },
           Event.wroteHeader 500]
        ∧ effectiveStatus (stateHandlerMiddleware stateHandlers next r) = some 500
        ∧ responseBody (stateHandlerMiddleware stateHandlers next r) = [])
    ∧ (sf (act.Action == "setup")
          { Name := act.State,
            Parameters := deleteKey (deleteKey params0 "action") "state" }
          = HandlerResult.result none →
        stateHandlerMiddleware stateHandlers next r =
          [Event.stateHandlerCalled (act.Action == "setup")
             { Name := act.State,
               Parameters := deleteKey (deleteKey params0 "action") "state" },
           Event.wroteHeader 500]
        ∧ effectiveStatus (stateHandlerMiddleware stateHandlers next r) = some 500
        ∧ responseBody (stateHandlerMiddleware stateHandlers next r) = []) := by
  have hred : stateHandlerMiddleware stateHandlers next r =
      match sf (act.Action == "setup")
          { Name := act.State,
            Parameters := deleteKey (deleteKey params0 "action") "state" } with
      | HandlerResult.errored =>
        [Event.stateHandlerCalled (act.Action == "setup")
           { Name := act.State,
             Parameters := deleteKey (deleteKey params0 "action") "state" },
         Event.wroteHeader 500]
      | HandlerResult.nilResult =>
        [Event.stateHandlerCalled (act.Action == "setup")
           { Name := act.State,
             Parameters := deleteKey (deleteKey params0 "action") "state" },
         Event.wroteHeader 200]
      | HandlerResult.result none =>
        [Event.stateHandlerCalled (act.Action == "setup")
           { Name := act.State,
             Parameters := deleteKey (deleteKey params0 "action") "state" },
         Event.wroteHeader 500]
      | HandlerResult.result (some resBody) =>
        [Event.stateHandlerCalled (act.Action == "setup")
           { Name := act.State,
             Parameters := deleteKey (deleteKey params0 "action") "state" },
         Event.addedHeader "content-type" "application/json",
         Event.wroteBody resBody,
         Event.wroteHeader 200] := by
    simp only [stateHandlerMiddleware, hpath, hdec, hp, hfound,
      eq_self_iff_true, if_true]
  refine ⟨?_, ?_, ?_, ?_⟩
  · intro b hsf
    rw [hred, hsf]
    exact ⟨rfl, rfl, rfl⟩
  · intro hsf
    rw [hred, hsf]
    exact ⟨rfl, rfl, rfl⟩
  · intro hsf
    rw [hred, hsf]
    exact ⟨rfl, rfl, rfl⟩
  · intro hsf
    rw [hred, hsf]
    exact ⟨rfl, rfl, rfl⟩

/-- C10: every request whose URL path equals `/__setup`, regardless of
HTTP method, is handled entirely by the state-handler middleware: the
downstream handler is never invoked (the trace is independent of `next`
and contains no downstream activity), so such a request can never reach
the real or dummy provider; the downstream handler is invoked exactly when
the path differs from `/__setup`. -/
theorem c10_setup_path_fully_handled
    (stateHandlers : List (String × StateHandler)) (next : Handler)
    (r : Request) :
    (r.path = providerStatesSetupPath →
        (∀ next' : Handler,
          stateHandlerMiddleware stateHandlers next' r
            = stateHandlerMiddleware stateHandlers next r)
        ∧ Event.downstream ∉ stateHandlerMiddleware stateHandlers next r)
    ∧ (r.path ≠ providerStatesSetupPath →
        stateHandlerMiddleware stateHandlers next r = next r) := by
  constructor
  · intro hpath
    constructor
    · intro next'
      simp only [stateHandlerMiddleware, hpath, eq_self_iff_true, if_true]
    · simp only [stateHandlerMiddleware, hpath, eq_self_iff_true, if_true]
      rcases hd : decodeStateHandlerAction r.body with _ | act
      · simp
      · rcases hq : decodeProviderStateResponse r.body with _ | p0
        · simp
        · rcases hh : getHandler stateHandlers act.State with _ | sf
          · simp [hh]
          · rcases hr : sf (act.Action == "setup")
                { Name := act.State,
                  Parameters := deleteKey (deleteKey p0 "action") "state" }
              with _ | _ | mb
            · simp [hh, hr]
            · simp [hh, hr]
            · rcases mb with _ | b <;> simp [hh, hr]
  · intro hpath
    simp [stateHandlerMiddleware, hpath]

/-! ### Helper lemmas about the orchestrator -/

theorem runAfterDummy_verified (v : Verifier) (env : RunEnv)
    (request : VerifyRequest) (effs : List RunEffect)
    (req' : VerifyRequest) (res : Option String)
    (h : (runAfterDummy v env request effs).1 = RunOutcome.verified req' res) :
    req'.Transports = request.Transports ++
      (if request.MessageHandlers = [] then []
       else [{ Path := "/__messages", Protocol := "message",
               Port := env.proxyPort % 65536 }])
    ∧ req'.ProviderBaseURL = request.ProviderBaseURL := by
  simp only [runAfterDummy] at h
  split at h
  · simp at h
  · split at h
    · simp at h
    · split at h
      · simp at h
      · simp only [Prod.fst] at h
        injection h with h1 h2
        subst h1
        by_cases hm : request.MessageHandlers = [] <;>
          by_cases hs : request.ProviderStatesSetupURL = ""
            ∧ request.StateHandlers ≠ [] <;>
          simp [hm, hs]

theorem runAfterDummy_effects (v : Verifier) (env : RunEnv)
    (request : VerifyRequest) (effs : List RunEffect) :
    ∃ tail, (runAfterDummy v env request effs).2 = effs ++ tail
      ∧ ∀ e ∈ tail,
        (∀ h p, e ≠ RunEffect.startedDummyServer h p)
        ∧ (∀ opts, e = RunEffect.startedProxy opts →
            ∃ u, env.parseURL request.ProviderBaseURL = some u
              ∧ opts = buildProxyOptions u request) := by
  simp only [runAfterDummy]
  split
  · exact ⟨[], by simp⟩
  · split
    · exact ⟨[], by simp⟩
    · rename_i u hu
      split
      · refine ⟨[RunEffect.startedProxy (buildProxyOptions u request)], rfl, ?_⟩
        intro e he
        simp only [List.mem_singleton] at he
        subst he
        refine ⟨by simp, fun opts hopts => ⟨u, hu, ?_⟩⟩
        injection hopts with h
        exact h.symm
      · simp only [List.append_assoc]
        refine ⟨_, rfl, ?_⟩
        intro e he
        simp only [List.cons_append, List.nil_append, List.mem_cons,
          List.not_mem_nil, or_false] at he
        rcases he with he | he
        · subst he
          refine ⟨by simp, fun opts hopts => ⟨u, hu, ?_⟩⟩
          injection hopts with h
          exact h.symm
        · subst he
          exact ⟨by simp, by simp⟩

/-! ### Claim theorems: orchestrator -/

/-- Concrete run configuration on which the proxy port never becomes
reachable: every dial attempt before the client timeout fails. -/
def timeoutEnv : RunEnv :=
  { freePort := none,
    validateErr := none,
    parseURL := fun _ =>
      some { scheme := "http", hostname := "localhost", port := "8080", path := "" },
    proxyPort := 9999,
    proxyErr := none,
    dials := [false, false, false],
    verifyResult := none }

def timeoutVerifier : Verifier := { ClientTimeout := 10, Hostname := "localhost" }

def timeoutRequest : VerifyRequest :=
  { ProviderBaseURL := "http://localhost:8080",
    BeforeEach := false,
    AfterEach := false,
    StateHandlers := ["User foo exists"],
    MessageHandlers := [],
    RequestFilter := false,
    ProviderStatesSetupURL := "",
    Transports := [] }

/-- C7: on a run whose proxy port never becomes reachable within the
client timeout, `verifyProviderRaw` never invokes `request.Verify` (the
effect list holds exactly one effect, the proxy start) — but it does not
return the readiness-timeout error to its caller either: it ends in
`log.Fatal` (process exit, logging the unchecked proxy-start error
variable, here `none`), making the subsequent `return portErr`
unreachable. -/
theorem c7_port_timeout_fatal_not_returned :
    (verifyProviderRaw timeoutVerifier timeoutEnv timeoutRequest).1
      = RunOutcome.logFatal none
    ∧ (verifyProviderRaw timeoutVerifier timeoutEnv timeoutRequest).2
      = [RunEffect.startedProxy (buildProxyOptions
          { scheme := "http", hostname := "localhost", port := "8080", path := "" }
          timeoutRequest)] :=
  ⟨rfl, rfl⟩

/-- C8: a message transport descriptor is appended to the request's
transport list if and only if at least one message handler is registered,
and when appended it equals
`{Path: "/__messages", Protocol: "message", Port: <the proxy's port>}`. -/
theorem c8_message_transport_iff_handlers
    (v : Verifier) (env : RunEnv) (request req' : VerifyRequest)
    (res : Option String)
    (hport : env.proxyPort < 65536)
    (hver : (verifyProviderRaw v env request).1 = RunOutcome.verified req' res) :
    req'.Transports = request.Transports ++
      (if request.MessageHandlers = [] then []
       else [{ Path := "/__messages", Protocol := "message",
               Port := env.proxyPort }]) := by
  have hmod : env.proxyPort % 65536 = env.proxyPort := Nat.mod_eq_of_lt hport
  by_cases hurl : request.ProviderBaseURL = ""
  · simp only [verifyProviderRaw, hurl, eq_self_iff_true, if_true] at hver
    rcases hfp : env.freePort with _ | port
    · rw [hfp] at hver
      simp at hver
    · rw [hfp] at hver
      have h := runAfterDummy_verified _ _ _ _ _ _ hver
      rw [hmod] at h
      exact h.1
  · simp only [verifyProviderRaw, hurl, if_false] at hver
    have h := runAfterDummy_verified _ _ _ _ _ _ hver
    rw [hmod] at h
    exact h.1

/-- C9: if the verify request supplies a non-empty provider base URL, no
dummy provider server is started and that URL (as parsed) is the proxy
target; if the provider base URL is empty, a dummy server is started on
the freshly allocated free port and the generated URL
`http://localhost:<port>` becomes the effective provider base URL;
failure to allocate the port is fatal to the run. -/
theorem c9_provider_base_url_dummy_server
    (v : Verifier) (env : RunEnv) (request : VerifyRequest) :
    (request.ProviderBaseURL ≠ "" →
        (∀ h p, RunEffect.startedDummyServer h p ∉
          (verifyProviderRaw v env request).2)
      ∧ ∀ opts, RunEffect.startedProxy opts ∈ (verifyProviderRaw v env request).2 →
          ∃ u, env.parseURL request.ProviderBaseURL = some u
            ∧ opts = buildProxyOptions u request)
    ∧ (∀ p, request.ProviderBaseURL = "" → env.freePort = some p →
        RunEffect.startedDummyServer (validateConfig v).Hostname p ∈
          (verifyProviderRaw v env request).2
      ∧ ∀ req' res, (verifyProviderRaw v env request).1 = RunOutcome.verified req' res →
          req'.ProviderBaseURL = "http://localhost:" ++ toString p)
    ∧ (request.ProviderBaseURL = "" → env.freePort = none →
        (verifyProviderRaw v env request).1 =
          RunOutcome.logPanic "unable to allocate a port for verification") := by
  refine ⟨?_, ?_, ?_⟩
  · intro hurl
    have hrun : verifyProviderRaw v env request
        = runAfterDummy (validateConfig v) env request [] := by
      simp [verifyProviderRaw, hurl]
    obtain ⟨tail, htail, hprop⟩ :=
      runAfterDummy_effects (validateConfig v) env request []
    rw [hrun, htail, List.nil_append]
    constructor
    · intro h p hmem
      exact (hprop _ hmem).1 h p rfl
    · intro opts hmem
      exact (hprop _ hmem).2 opts rfl
  · intro p hurl hfp
    have hrun : verifyProviderRaw v env request
        = runAfterDummy (validateConfig v) env
            { request with ProviderBaseURL := "http://localhost:" ++ toString p }
            [RunEffect.startedDummyServer (validateConfig v).Hostname p] := by
      simp [verifyProviderRaw, hurl, hfp]
    rw [hrun]
    constructor
    · obtain ⟨tail, htail, _⟩ :=
        runAfterDummy_effects (validateConfig v) env
          { request with ProviderBaseURL := "http://localhost:" ++ toString p }
          [RunEffect.startedDummyServer (validateConfig v).Hostname p]
      rw [htail]
      simp
    · intro req' res hver
      have h := runAfterDummy_verified _ _ _ _ _ _ hver
      exact h.2
  · intro hurl hfp
    simp [verifyProviderRaw, hurl, hfp]

/-! ### Concrete fixtures and witnesses -/

/-- The spec's example handler for `"User foo exists"`, returning a result
that marshals to `{"userId":42}`. -/
def fooStateHandler : StateHandler := fun _ _ =>
  HandlerResult.result (some (Json.obj [("userId", Json.num 42)]))

def fooRegistry : List (String × StateHandler) := [("User foo exists", fooStateHandler)]

def fooBodyFields : List (String × Json) :=
  [("action", Json.str "setup"),
   ("state", Json.str "User foo exists"),
   ("id", Json.str "foo")]

def setupRequest : Request :=
  { method := "POST", path := "/__setup", body := some (Json.obj fooBodyFields) }

def noHandlerRequest : Request :=
  { method := "POST", path := "/__setup",
    body := some (Json.obj
      [("action", Json.str "setup"), ("state", Json.str "No such state")]) }

def malformedRequest : Request :=
  { method := "POST", path := "/__setup", body := none }

def getSetupRequest : Request :=
  { method := "GET", path := "/__setup", body := some Json.null }

def providerRequest : Request :=
  { method := "GET", path := "/users/1", body := none }

def emptyNext : Handler := fun _ => []

def downstreamNext : Handler := fun _ => [Event.downstream]

theorem c1_witness :
    (getField (deleteKey (deleteKey (goObjMap fooBodyFields) "action") "state")
        "action" = none
      ∧ getField (deleteKey (deleteKey (goObjMap fooBodyFields) "action") "state")
        "state" = none
      ∧ getField (deleteKey (deleteKey (goObjMap fooBodyFields) "action") "state")
        "id" = getField fooBodyFields "id")
    ∧ ∃ rest, stateHandlerMiddleware fooRegistry downstreamNext setupRequest =
        Event.stateHandlerCalled true
          { Name := "User foo exists",
            Parameters :=
              deleteKey (deleteKey (goObjMap fooBodyFields) "action") "state" }
          :: rest := by
  have h := c1_params_equal_body_minus_control_keys fooRegistry downstreamNext
    setupRequest fooBodyFields
    { Action := "setup", State := "User foo exists" } fooStateHandler
    rfl rfl rfl rfl
  refine ⟨⟨?_, ?_, ?_⟩, h.2⟩
  · simpa using h.1 "action"
  · simpa using h.1 "state"
  · simpa using h.1 "id"

theorem c2_witness :
    stateHandlerMiddleware fooRegistry downstreamNext noHandlerRequest
      = [Event.wroteHeader 200]
    ∧ responseBody
        (stateHandlerMiddleware fooRegistry downstreamNext noHandlerRequest) = [] := by
  have h := c2_missing_handler_noop_200 fooRegistry downstreamNext noHandlerRequest
    { Action := "setup", State := "No such state" } rfl rfl rfl
  exact ⟨h.1, h.2.2.1⟩

theorem c3_witness :
    stateHandlerMiddleware fooRegistry downstreamNext malformedRequest
      = [Event.wroteHeader 500]
    ∧ effectiveStatus
        (stateHandlerMiddleware fooRegistry downstreamNext malformedRequest)
      = some 500 := by
  have h := c3_undecodable_body_responds_500 fooRegistry downstreamNext
    malformedRequest rfl rfl
  exact ⟨h.1, h.2.1⟩

theorem c4_witness :
    beforeEachMiddleware (some "hook failed") downstreamNext setupRequest =
      Event.beforeHookCalled :: Event.wroteHeader 500
        :: downstreamNext setupRequest := by
  exact (c4_before_each_hook_gating (some "hook failed") downstreamNext setupRequest
    (by simp [downstreamNext])).2.2.1 "hook failed" rfl rfl

theorem c5_witness :
    afterEachMiddleware (some "hook failed") downstreamNext providerRequest =
      downstreamNext providerRequest
        ++ [Event.afterHookCalled, Event.wroteHeader 500] := by
  exact (c5_after_each_runs_downstream_first (some "hook failed") downstreamNext
    providerRequest (by simp [downstreamNext])).2.2.1 "hook failed" (by decide) rfl

theorem c6_witness :
    stateHandlerMiddleware fooRegistry downstreamNext setupRequest =
      [Event.stateHandlerCalled true
         { Name := "User foo exists", Parameters := [("id", Json.str "foo")] },
       Event.addedHeader "content-type" "application/json",
       Event.wroteBody (Json.obj [("userId", Json.num 42)]),
       Event.wroteHeader 200]
    ∧ effectiveStatus
        (stateHandlerMiddleware fooRegistry downstreamNext setupRequest) = some 200
    ∧ responseBody (stateHandlerMiddleware fooRegistry downstreamNext setupRequest)
        = [Json.obj [("userId", Json.num 42)]] := by
  have h := (c6_registered_handler_response_cases fooRegistry downstreamNext
    setupRequest { Action := "setup", State := "User foo exists" }
    (goObjMap fooBodyFields) fooStateHandler rfl rfl rfl rfl).1
    (Json.obj [("userId", Json.num 42)]) rfl
  exact h

def c8Verifier : Verifier := { ClientTimeout := 0, Hostname := "" }

def c8Env : RunEnv :=
  { freePort := none,
    validateErr := none,
    parseURL := fun _ =>
      some { scheme := "http", hostname := "localhost", port := "8080", path := "" },
    proxyPort := 7777,
    proxyErr := none,
    dials := [true],
    verifyResult := none }

def c8Request : VerifyRequest :=
  { ProviderBaseURL := "http://localhost:8080",
    BeforeEach := false,
    AfterEach := false,
    StateHandlers := [],
    MessageHandlers := ["an order event"],
    RequestFilter := false,
    ProviderStatesSetupURL := "",
    Transports := [] }

def c8FinalRequest : VerifyRequest :=
  { c8Request with
    Transports := [{ Path := "/__messages", Protocol := "message", Port := 7777 }] }

theorem c8_witness :
    c8FinalRequest.Transports = c8Request.Transports ++
      (if c8Request.MessageHandlers = [] then []
       else [{ Path := "/__messages", Protocol := "message", Port := 7777 }]) := by
  exact c8_message_transport_iff_handlers c8Verifier c8Env c8Request c8FinalRequest
    none (by decide) rfl

def c9Verifier : Verifier := { ClientTimeout := 0, Hostname := "" }

def c9Env : RunEnv :=
  { freePort := some 1234,
    validateErr := none,
    parseURL := fun _ =>
      some { scheme := "http", hostname := "localhost", port := "1234", path := "" },
    proxyPort := 7777,
    proxyErr := none,
    dials := [true],
    verifyResult := none }

def c9Request : VerifyRequest :=
  { ProviderBaseURL := "",
    BeforeEach := false,
    AfterEach := false,
    StateHandlers := [],
    MessageHandlers := [],
    RequestFilter := false,
    ProviderStatesSetupURL := "",
    Transports := [] }

theorem c9_witness :
    RunEffect.startedDummyServer "localhost" 1234 ∈
      (verifyProviderRaw c9Verifier c9Env c9Request).2 := by
  have h := (c9_provider_base_url_dummy_server c9Verifier c9Env c9Request).2.1
    1234 rfl rfl
  exact h.1

theorem c10_witness :
    stateHandlerMiddleware fooRegistry emptyNext getSetupRequest
      = stateHandlerMiddleware fooRegistry downstreamNext getSetupRequest
    ∧ Event.downstream ∉
        stateHandlerMiddleware fooRegistry downstreamNext getSetupRequest := by
  have h := (c10_setup_path_fully_handled fooRegistry downstreamNext
    getSetupRequest).1 rfl
  exact ⟨h.1 emptyNext, h.2⟩
